import Mathlib

/-!
Verification development for the quipbot IRC client core.

The definitions below are shallow embeddings of the Python source:
  * `quipbot/utils/floodpro.py`   — sliding-window flood protection
  * `quipbot/utils/tokenbucket.py`— token-bucket rate limiter
  * `quipbot/core/irc.py`         — config view, nick-collision recovery,
                                    channel-message router, outbound chunking
  * `quipbot/core/permissions.py` — command-config resolution
  * `quipbot/core/handler.py`     — private-message / CTCP dispatch

Modelling conventions: wall-clock instants and YAML numbers are rationals;
Python dicts are association lists in insertion order (`PyDict`); YAML values
are the inductive `Val`; a Python `KeyError` path that no claim exercises is
modelled by the null/zero default of the corresponding accessor; the LLM call
(`AIClient.get_response`) and the regex engine (`re.search`) are external
collaborators and enter the router as function parameters.
-/

namespace Quipbot

/-- YAML / Python values as stored in the configuration tree. -/
inductive Val where
  | vnull : Val
  | vbool : Bool → Val
  | vnum : ℚ → Val
  | vstr : String → Val
  | vlist : List Val → Val
  | vdict : List (String × Val) → Val

/-- A Python dict: association list in insertion order. -/
abbrev PyDict := List (String × Val)

/-- `d.get(k)` / `d[k]` presence lookup: first binding of the key. -/
def pyGet? (d : PyDict) (k : String) : Option Val :=
  (d.find? (fun kv => kv.1 = k)).map (fun kv => kv.2)

/-- `d.get(k, dflt)`. -/
def pyGetD (d : PyDict) (k : String) (dflt : Val) : Val :=
  (pyGet? d k).getD dflt

/-- `k in d` for a Python dict. -/
def pyHas (d : PyDict) (k : String) : Bool :=
  (pyGet? d k).isSome

/-- `v.get(k, dflt)` where `v` is expected to be a dict value. -/
def pyGetVD (v : Val) (k : String) (dflt : Val) : Val :=
  match v with
  | Val.vdict d => pyGetD d k dflt
  | _ => dflt

/-- `v.get(k)` as an `Option`, where `v` is expected to be a dict value. -/
def pyGetV? (v : Val) (k : String) : Option Val :=
  match v with
  | Val.vdict d => pyGet? d k
  | _ => none

/-- `d[k] = v` on a Python dict: replace in place if present, else append. -/
def pySet (d : PyDict) (k : String) (v : Val) : PyDict :=
  match d with
  | [] => [(k, v)]
  | kv :: rest => if kv.1 = k then (k, v) :: rest else kv :: pySet rest k v

/-- `{**g, **c}`: start from `g`, write every binding of `c` over it. -/
def pyMerge (g c : PyDict) : PyDict :=
  c.foldl (fun acc kv => pySet acc kv.1 kv.2) g

/-- Coerce a value to a string (`Val.vstr` payload, else empty). -/
def valAsStr (v : Val) : String :=
  match v with
  | Val.vstr s => s
  | _ => ""

/-- Coerce a value to a number (`Val.vnum` payload, else zero). -/
def valAsQ (v : Val) : ℚ :=
  match v with
  | Val.vnum q => q
  | _ => 0

/-- Iterate a value as a Python list. -/
def valItems (v : Val) : List Val :=
  match v with
  | Val.vlist xs => xs
  | _ => []

/-- Python truthiness of a value. -/
def pyTruthy (v : Val) : Bool :=
  match v with
  | Val.vnull => false
  | Val.vbool b => b
  | Val.vnum q => q ≠ 0
  | Val.vstr s => s ≠ ""
  | Val.vlist xs => !xs.isEmpty
  | Val.vdict d => !d.isEmpty

/-- `str.lower()` (ASCII lowering; the source compares IRC names this way). -/
def strLower (s : String) : String :=
  String.mk (s.data.map Char.toLower)

/-- Boolean prefix test on character lists (structured so that an empty or
literal pattern reduces even when the tail of the scanned list is opaque). -/
def isPreL : List Char → List Char → Bool
  | [], _ => true
  | p :: ps, s =>
    match s with
    | [] => false
    | c :: cs => p == c && isPreL ps cs

/-- `s.startswith(pre)`. -/
def pyStarts (s pre : String) : Bool :=
  isPreL pre.data s.data

/-- Whether `sub` occurs as a contiguous sublist of `s` (`sub in s`). -/
def containsL (sub : List Char) : List Char → Bool
  | [] => isPreL sub []
  | c :: rest => isPreL sub (c :: rest) || containsL sub rest

/-- Python `sub in s` on strings. -/
def pyContains (sub s : String) : Bool :=
  containsL sub.data s.data

/-- Everything before the first occurrence of `sub` (whole list if absent). -/
def beforeFirstL (sub : List Char) : List Char → List Char
  | [] => []
  | c :: rest =>
    if isPreL sub (c :: rest) then [] else c :: beforeFirstL sub rest

/-- `s.split(sep, 1)[0]`: the part before the first occurrence of `sep`. -/
def strBeforeFirst (sep s : String) : String :=
  if pyContains sep s then String.mk (beforeFirstL sep.data s.data) else s

/-- Python whitespace characters (for `strip`/`split`). -/
def isPyWs (c : Char) : Bool :=
  c = ' ' || c = '\t' || c = '\n' || c = '\r' || c = '\x0b' || c = '\x0c'

/-- `s.lstrip()` on a character list. -/
def lstripL (s : List Char) : List Char := s.dropWhile isPyWs

/-- `s.rstrip()` on a character list. -/
def rstripL (s : List Char) : List Char := (s.reverse.dropWhile isPyWs).reverse

/-- `s.strip()` on strings. -/
def pyStrip (s : String) : String := String.mk (lstripL (rstripL s.data))

/-- Helper for `s.split()`: accumulate the current word (reversed). -/
def splitWsAux : List Char → List Char → List (List Char)
  | cur, [] => if cur.isEmpty then [] else [cur.reverse]
  | cur, c :: rest =>
    if isPyWs c then
      if cur.isEmpty then splitWsAux [] rest else cur.reverse :: splitWsAux [] rest
    else splitWsAux (c :: cur) rest

/-- `s.split()` — split on runs of whitespace, no empty parts. -/
def pySplitWs (s : String) : List String :=
  (splitWsAux [] s.data).map String.mk

/-- Render a YAML number the way the source's f-strings do (ints plainly). -/
def pyNumStr (q : ℚ) : String :=
  if q.den = 1 then toString q.num else toString q

/-- Point update of a one-key table. -/
def upd1 {α : Type} (f : String → α) (k : String) (v : α) : String → α :=
  fun x => if x = k then v else f x

/-- Point update of a two-key table. -/
def upd2 {α : Type} (f : String → String → α) (k1 k2 : String) (v : α) :
    String → String → α :=
  fun x y => if x = k1 ∧ y = k2 then v else f x y

/-- The bot configuration: the parsed global YAML tree.
`IRCBot.__init__` aliases `self.channels = config['channels']`, so the
channel list is derived from the same tree. -/
abbrev Cfg := PyDict

/-- `self.channels` / `self.config['channels']`: the per-channel dicts. -/
def cfgChannels (cfg : Cfg) : List PyDict :=
  (valItems (pyGetD cfg "channels" Val.vnull)).filterMap
    (fun v => match v with | Val.vdict d => some d | _ => none)

/-- `FloodProtection` mutable state (`floodpro.py`, `__init__`). -/
structure FloodState where
  channelHistory : String → String → List ℚ
  privmsgHistory : String → List ℚ
  ignoredUsers : String → Option ℚ
  bannedUsers : String → String → Option ℚ

/-- The empty flood state (fresh `FloodProtection`). -/
def FloodState.empty : FloodState :=
  ⟨fun _ _ => [], fun _ => [], fun _ => none, fun _ _ => none⟩

/-- Core of `check_channel_flood` after the ban check: drop old timestamps,
append the current one, ban on reaching the line limit. -/
def channelFloodCore (st : FloodState) (cc : PyDict) (channel nick : String)
    (now : ℚ) : Bool × FloodState :=
  let fc := pyGetD cc "floodpro" Val.vnull
  let secs := valAsQ (pyGetVD fc "seconds" Val.vnull)
  let lines := valAsQ (pyGetVD fc "lines" Val.vnull)
  let timestamps := (st.channelHistory channel nick).filter
    (fun t => now - t ≤ secs)
  let timestamps := timestamps ++ [now]
  if (timestamps.length : ℚ) ≥ lines then
    let banDuration := valAsQ (pyGetVD fc "ban_time" Val.vnull) * 60
    (false,
      { st with
        bannedUsers := upd2 st.bannedUsers channel nick (some (now + banDuration))
        channelHistory := upd2 st.channelHistory channel nick [] })
  else
    (true, { st with channelHistory := upd2 st.channelHistory channel nick timestamps })

/-- `FloodProtection.check_channel_flood` (`floodpro.py` lines 17–63).
Returns whether the message should be processed, plus the updated state
(the expired-ban deletion of `_is_banned` included). -/
def checkChannelFlood (cfg : Cfg) (st : FloodState)
    (channel nick _userhost : String) (now : ℚ) (isOp isAdmin : Bool) :
    Bool × FloodState :=
  if isOp || isAdmin then (true, st)
  else
    match (cfgChannels cfg).find?
        (fun c => valAsStr (pyGetD c "name" Val.vnull) = channel) with
    | none => (true, st)
    | some cc =>
      if !pyHas cc "floodpro" then (true, st)
      else
        match st.bannedUsers channel nick with
        | some expiry =>
          if now < expiry then (false, st)
          else
            channelFloodCore
              { st with bannedUsers := upd2 st.bannedUsers channel nick none }
              cc channel nick now
        | none => channelFloodCore st cc channel nick now

/-- Core of `check_privmsg_flood` after the ignore check. -/
def privmsgFloodCore (cfg : Cfg) (st : FloodState) (nick : String) (now : ℚ) :
    Bool × FloodState :=
  let fc := pyGetD cfg "privmsg_floodpro" Val.vnull
  let secs := valAsQ (pyGetVD fc "seconds" Val.vnull)
  let lines := valAsQ (pyGetVD fc "lines" Val.vnull)
  let timestamps := (st.privmsgHistory nick).filter (fun t => now - t ≤ secs)
  let timestamps := timestamps ++ [now]
  if (timestamps.length : ℚ) ≥ lines then
    let ignoreDuration := valAsQ (pyGetVD fc "ignore_time" Val.vnull) * 60
    (false,
      { st with
        ignoredUsers := upd1 st.ignoredUsers nick (some (now + ignoreDuration))
        privmsgHistory := upd1 st.privmsgHistory nick [] })
  else
    (true, { st with privmsgHistory := upd1 st.privmsgHistory nick timestamps })

/-- `FloodProtection.check_privmsg_flood` (`floodpro.py` lines 65–109). -/
def checkPrivmsgFlood (cfg : Cfg) (st : FloodState) (nick _userhost : String)
    (now : ℚ) (isAdmin : Bool) : Bool × FloodState :=
  if isAdmin then (true, st)
  else if !pyHas cfg "privmsg_floodpro" then (true, st)
  else
    match st.ignoredUsers nick with
    | some expiry =>
      if now < expiry then (false, st)
      else
        privmsgFloodCore cfg
          { st with ignoredUsers := upd1 st.ignoredUsers nick none } nick now
    | none => privmsgFloodCore cfg st nick now

/-- `FloodProtection.get_ban_command` (`floodpro.py` lines 135–144):
`*!*@<host>` ban mask plus kick, in that order. -/
def getBanCommand (cfg : Cfg) (channel nick userhost : String) : List String :=
  let banMask := "*!*@" ++ ((userhost.splitOn "@").getD 1 "")
  let cc := ((cfgChannels cfg).find?
    (fun c => valAsStr (pyGetD c "name" Val.vnull) = channel)).getD []
  let duration := valAsQ (pyGetVD (pyGetD cc "floodpro" Val.vnull) "ban_time" Val.vnull)
  [ "MODE " ++ channel ++ " +b " ++ banMask,
    "KICK " ++ channel ++ " " ++ nick ++ " :Flood protection - banned for "
      ++ pyNumStr duration ++ " minutes" ]

/-- Dotted-key traversal of `get_channel_config`: follow the parts through
nested dicts; a missing part or non-dict yields Python `None`. -/
def pyTraverse (v : Val) : List String → Val
  | [] => v
  | p :: rest =>
    match v with
    | Val.vdict d =>
      match pyGet? d p with
      | some v' => pyTraverse v' rest
      | none => Val.vnull
    | _ => Val.vnull

/-- `IRCBot.get_channel_config` (`irc.py` lines 1089–1130): channel override,
then global config, then the caller's default.  A dotted key traverses the
channel tree (a `None` result falls through); the global fallback looks the
key string itself up in the top level of the global tree. -/
def getChannelConfig (cfg : Cfg) (channel key : String) (dflt : Val) : Val :=
  let channelLower := strLower channel
  let cc? := (cfgChannels cfg).find?
    (fun c => strLower (valAsStr (pyGetD c "name" Val.vnull)) = channelLower)
  let fromChannel : Option Val :=
    match cc? with
    | none => none
    | some cc =>
      if pyContains "." key then
        match pyTraverse (Val.vdict cc) (key.splitOn ".") with
        | Val.vnull => none
        | v => some v
      else pyGet? cc key
  match fromChannel with
  | some v => v
  | none =>
    match pyGet? cfg key with
    | some v => v
    | none => dflt

/-- `IRCBot.get_channel_command_config` (`irc.py` lines 1132–1164): the
channel's command block wins entirely when explicitly present, otherwise
the global command block is returned as-is. -/
def getChannelCommandConfig (cfg : Cfg) (channel command : String) : Val :=
  let globalCmd := pyGetVD (pyGetD cfg "commands" (Val.vdict [])) command (Val.vdict [])
  let cc? := (cfgChannels cfg).find?
    (fun c => strLower (valAsStr (pyGetD c "name" Val.vnull)) = strLower channel)
  match cc? with
  | none => globalCmd
  | some cc =>
    if cc.isEmpty then globalCmd
    else
      match pyGet? cc "commands" with
      | some (Val.vdict d) =>
        match pyGet? d command with
        | some b => b
        | none => globalCmd
      | _ => globalCmd

/-- `PermissionManager._get_command_config` (`permissions.py` lines 46–64):
merges the global command block with the channel's (`{**global, **channel}`,
channel keys taking precedence). -/
def permGetCommandConfig (cfg : Cfg) (command : String) (channel : Option String) :
    Val :=
  let globalCmd := pyGetVD (pyGetD cfg "commands" (Val.vdict [])) command (Val.vdict [])
  match channel with
  | none => globalCmd
  | some ch =>
    if ch = "" then globalCmd
    else
      let cc? := (cfgChannels cfg).find?
        (fun c => strLower (valAsStr (pyGetD c "name" Val.vnull)) = strLower ch)
      match cc? with
      | none => globalCmd
      | some cc =>
        if pyHas cc "commands" then
          let channelCmd := pyGetVD (pyGetD cc "commands" Val.vnull) command (Val.vdict [])
          match globalCmd, channelCmd with
          | Val.vdict g, Val.vdict c => Val.vdict (pyMerge g c)
          | _, _ => channelCmd
        else globalCmd

/-- Presence-based path lookup used by the spec-side resolvers: defined
(possibly null) values along the whole path. -/
def specTraverse? (v : Val) : List String → Option Val
  | [] => some v
  | p :: rest =>
    match v with
    | Val.vdict d => (pyGet? d p).bind (fun v' => specTraverse? v' rest)
    | _ => none

/-- Modelled from the spec: `Get(room, key, default)` resolves dotted keys by
traversing the per-room override tree first, then the global tree, else
returning `default`. -/
def specConfigGet (cfg : Cfg) (channel key : String) (dflt : Val) : Val :=
  let lookupIn : Val → Option Val := fun v =>
    if pyContains "." key then specTraverse? v (key.splitOn ".") else pyGetV? v key
  let cc? := (cfgChannels cfg).find?
    (fun c => strLower (valAsStr (pyGetD c "name" Val.vnull)) = strLower channel)
  match cc?.bind (fun cc => lookupIn (Val.vdict cc)) with
  | some v => v
  | none =>
    match lookupIn (Val.vdict cfg) with
    | some v => v
    | none => dflt

/-- Modelled from the spec: `GetCommand(room, name)` — if the room explicitly
defines the command block it wins entirely (no merge with global for that
command); otherwise the global command block is returned as-is. -/
def specGetCommand (cfg : Cfg) (channel command : String) : Val :=
  let globalCmd := pyGetVD (pyGetD cfg "commands" (Val.vdict [])) command (Val.vdict [])
  let cc? := (cfgChannels cfg).find?
    (fun c => strLower (valAsStr (pyGetD c "name" Val.vnull)) = strLower channel)
  match cc? with
  | none => globalCmd
  | some cc =>
    match pyGetV? (pyGetD cc "commands" Val.vnull) command with
    | some b => b
    | none => globalCmd

/-- `TokenBucket` state (`tokenbucket.py`). -/
structure TokenBucket where
  capacity : ℚ
  fillRate : ℚ
  tokens : ℚ
  lastUpdate : ℚ

/-- `TokenBucket._add_tokens` (lines 19–26): lazy accrual capped at capacity. -/
def addTokens (b : TokenBucket) (now : ℚ) : TokenBucket :=
  { b with
    tokens := min b.capacity (b.tokens + (now - b.lastUpdate) * b.fillRate)
    lastUpdate := now }

/-- `TokenBucket.get_token` (lines 28–48): wait time plus updated bucket. -/
def getToken (b : TokenBucket) (now : ℚ) (block : Bool) : ℚ × TokenBucket :=
  let b := addTokens b now
  if b.tokens ≥ 1 then (0, { b with tokens := b.tokens - 1 })
  else if !block then (-1, b)
  else ((1 - b.tokens) / b.fillRate, b)

/-- Nickname-related fields of `IRCBot` consulted by the 433 handler. -/
structure NickSt where
  registrationComplete : Bool
  nick : String
  altnick : String
  currentNick : String
  nickAttempt : ℕ

/-- The `433` branch of `IRCBot.handle_numeric` (`irc.py` lines 246–264):
updated state plus the raw lines sent. -/
def handle433 (s : NickSt) : NickSt × List String :=
  if !s.registrationComplete then
    if s.currentNick = s.nick then
      let c := s.altnick
      ({ s with currentNick := c }, ["NICK " ++ c])
    else
      let a := s.nickAttempt + 1
      let c := s.altnick ++ toString a
      ({ s with nickAttempt := a, currentNick := c }, ["NICK " ++ c])
  else (s, [])

/-- Python `s.rfind(sub, 0, endIdx)`: highest start of an occurrence lying
entirely inside `s[0:endIdx]`, or `-1`. -/
def pyRFindI (sub s : List Char) (endIdx : Nat) : Int :=
  match ((List.range (endIdx + 1)).filter
      (fun i => decide (i + sub.length ≤ endIdx) && isPreL sub (s.drop i))).getLast? with
  | some i => (i : Int)
  | none => -1

/-- Python `s.replace(sub, new, cnt)` with explicit fuel (the fuel is at
least the list length wherever this is used, and `sub` is nonempty). -/
def pyReplaceCntAux (sub new : List Char) : Nat → Nat → List Char → List Char
  | _, _, [] => []
  | _, 0, s => s
  | 0, _, s => s
  | fuel + 1, cnt + 1, c :: rest =>
    if isPreL sub (c :: rest) then
      new ++ pyReplaceCntAux sub new fuel cnt ((c :: rest).drop sub.length)
    else c :: pyReplaceCntAux sub new fuel (cnt + 1) rest

/-- Python `s.replace(sub, new, cnt)` (left-to-right, non-overlapping). -/
def pyReplaceCnt (sub new : List Char) (cnt : Nat) (s : List Char) : List Char :=
  pyReplaceCntAux sub new (s.length + 1) cnt s

/-- One of the `while sub in message: message.replace(sub, new, 2)` loops of
`format_message`; the fuel exceeds the possible number of iterations. -/
def fmtLoop (sub new : List Char) : Nat → List Char → List Char
  | 0, s => s
  | fuel + 1, s =>
    if containsL sub s then fmtLoop sub new fuel (pyReplaceCnt sub new 2 s) else s

/-- `s.endswith(suf)`. -/
def pyEnds (s suf : String) : Bool :=
  List.isSuffixOf suf.data s.data

/-- `IRCBot.format_message` (`irc.py` lines 316–334): strip encapsulating
quotes, `**` → bold code, `_` → underline code. -/
def formatMessage (m : String) : String :=
  let s := if pyStarts m "\"" && pyEnds m "\"" then (m.data.drop 1).dropLast else m.data
  let s := fmtLoop "**".data [Char.ofNat 2] (s.length + 1) s
  let s := fmtLoop "_".data [Char.ofNat 31] (s.length + 1) s
  String.mk s

/-- The newline normalisation at the top of `send_channel_message`:
`' '.join(message.replace('\r', '').split('\n')).strip()`. -/
def normalizeMsg (m : String) : String :=
  pyStrip (String.mk ((m.data.filter (fun c => c ≠ '\r')).map
    (fun c => if c = '\n' then ' ' else c)))

/-- One iteration of the sentence-boundary loop of `send_channel_message`
(lines 390–394): `last_punct = rfind(punct, 0, max_len − 1)`; if it beats
the split point so far, move the split point past the punctuation. -/
def puncStep (s : List Char) (maxLen : Nat) (sp : Int) (punct : List Char) : Int :=
  let lastPunct := pyRFindI punct s (maxLen - 1)
  if lastPunct > sp then lastPunct + 2 else sp

/-- The split-point search of `send_channel_message` (lines 387–402):
sentence boundary nearest the limit, else last word boundary, else the
hard cut at `maxLen`. -/
def chunkSplitPoint (maxLen : Nat) (s : List Char) : Int :=
  let sp := [". ".data, "! ".data, "? ".data].foldl (puncStep s maxLen) (-1)
  let sp := if sp = -1 then pyRFindI " ".data s maxLen else sp
  if sp = -1 then (maxLen : Int) else sp

/-- The chunking loop of `send_channel_message` (lines 386–408); the fuel
exceeds the possible number of iterations. -/
def chunksAux (maxLen : Nat) : Nat → List Char → List (List Char)
  | 0, _ => []
  | _, [] => []
  | fuel + 1, s =>
    if s.length > maxLen then
      let sp := (chunkSplitPoint maxLen s).toNat
      rstripL (s.take sp) :: chunksAux maxLen fuel (lstripL (s.drop sp))
    else [s]

/-- The protocol lines emitted by `IRCBot.send_channel_message`
(`irc.py` lines 368–424), CRLF of `send_raw` included. -/
def sendChannelMessageLines (channel message : String) : List String :=
  let formatted := formatMessage (normalizeMsg message)
  let maxLen := 512 - ("PRIVMSG".length + channel.length + 4)
  (chunksAux maxLen (formatted.data.length + 1) formatted.data).map
    (fun c => "PRIVMSG " ++ channel ++ " :" ++ String.mk c ++ "\r\n")

/-- The router state touched by `handle_channel_message` /
`handle_private_message`. -/
structure BotSt where
  flood : FloodState
  chatHistory : String → List String
  lastChatTimes : String → Option ℚ
  lastTriggerTimes : String → ℚ
  conversationTimers : String → Option ℚ
  sleepUntil : String → Option ℚ
  currentNick : String

/-- Observable effects of the router. -/
inductive Action where
  | sendRaw : String → Action
  | runCommand : String → List String → Action
  | reply : String → String → Action
deriving DecidableEq

/-- `AIClient.add_to_history` (`ai_client.py` lines 130–143) together with
`_get_channel_history_size`: append, then trim oldest-first to the limit. -/
def addToHistory (cfg : Cfg) (hist : String → List String)
    (message channel : String) : String → List String :=
  let h := hist channel ++ [message]
  let maxH := if channel = "" then (20 : ℚ)
    else valAsQ (getChannelConfig cfg channel "chat_history" (Val.vnum 20))
  let h := if (h.length : ℚ) > maxH then h.tail else h
  upd1 hist channel h

/-- `IRCBot.was_last_speaker` (`irc.py` lines 641–656) applied to a channel's
history list. -/
def wasLastSpeaker (currentNick : String) (hist : List String) : Bool :=
  match hist.getLast? with
  | some lastMessage =>
    if pyContains ": " lastMessage then
      strLower (pyStrip (strBeforeFirst ": " lastMessage)) = strLower currentNick
    else false
  | none => false

/-- `IRCBot.is_sleeping` (`irc.py` lines 1224–1235): the flag plus the
sleep table after the expired-entry deletion. -/
def isSleeping (sleepUntil : String → Option ℚ) (channel : String) (now : ℚ) :
    Bool × (String → Option ℚ) :=
  let chl := strLower channel
  match sleepUntil chl with
  | some t =>
    if now ≥ t then (false, upd1 sleepUntil chl none) else (true, sleepUntil)
  | none => (false, sleepUntil)

/-- `IRCBot._should_continue_conversation` (`irc.py` lines 893–913). -/
def shouldContinueConversation (cfg : Cfg) (st : BotSt) (channel : String)
    (now : ℚ) : Bool :=
  if !pyTruthy (getChannelConfig cfg channel "ai_continue" (Val.vbool false)) then false
  else
    let lastTrigger := st.lastTriggerTimes (strLower channel)
    if lastTrigger = 0 then false
    else
      let timeoutMins := valAsQ (getChannelConfig cfg channel "ai_continue_mins" (Val.vnum 5))
      decide (now - lastTrigger ≤ timeoutMins * 60)

/-- `IRCBot._update_trigger_time` (`irc.py` lines 915–925). -/
def updateTriggerTime (cfg : Cfg) (st : BotSt) (channel : String) (now : ℚ) :
    BotSt :=
  let chl := strLower channel
  let st := { st with lastTriggerTimes := upd1 st.lastTriggerTimes chl now }
  if shouldContinueConversation cfg st channel now then
    let freq := valAsQ (getChannelConfig cfg channel "ai_continue_freq" (Val.vnum 30))
    { st with conversationTimers := upd1 st.conversationTimers chl (some (now + freq)) }
  else st

/-- `IRCBot.handle_channel_message` (`irc.py` lines 927–1072).
`regexSearch` stands for `re.search` on an `ignore_regex` pattern and
`aiResponse` for `AIClient.get_response` (an empty string standing for a
falsy response).  The random `ai_delay` sleep before a reply changes no
observable action and carries no state, so it does not appear.  Returns the
emitted effects and the updated state. -/
def handleChannelMessage (cfg : Cfg) (regexSearch : String → String → Bool)
    (aiResponse : String → String) (st : BotSt) (now : ℚ)
    (nick userhost channel message : String) : List Action × BotSt :=
  let channelLower := strLower channel
  let globalIgnores := (valItems (getChannelConfig cfg channel "ignore_nicks"
    (Val.vlist []))).map (fun v => strLower (valAsStr v))
  let channelConfig? := (cfgChannels cfg).find?
    (fun c => strLower (valAsStr (pyGetD c "name" (Val.vstr ""))) = strLower channel)
  let channelIgnores := match channelConfig? with
    | some cc => (valItems (pyGetD cc "ignore_nicks" (Val.vlist []))).map
        (fun v => strLower (valAsStr v))
    | none => []
  let ignoreList := globalIgnores ++ channelIgnores
  let globalRegex := valItems (getChannelConfig cfg channel "ignore_regex" (Val.vlist []))
  let channelRegex := valItems (getChannelConfig cfg channel "ignore_regex" (Val.vlist []))
  let regexPatterns := (globalRegex ++ channelRegex).map valAsStr
  let nickLower := strLower nick
  if ignoreList.contains nickLower then ([], st)
  else if regexPatterns.any (fun p => regexSearch p message) then ([], st)
  else
    let fl := checkChannelFlood cfg st.flood channel nick userhost now false false
    let st := { st with flood := fl.2 }
    if !fl.1 then ((getBanCommand cfg channel nick userhost).map Action.sendRaw, st)
    else
      let cmdPre := valAsStr (getChannelConfig cfg channel "cmd_prefix" (Val.vstr "!"))
      if pyStarts message cmdPre &&
          !(pySplitWs (String.mk (message.data.drop cmdPre.length))).isEmpty then
        let parts := pySplitWs (String.mk (message.data.drop cmdPre.length))
        ([Action.runCommand (strLower (parts.headD "")) parts.tail], st)
      else
        let st := { st with
          chatHistory := addToHistory cfg st.chatHistory (nick ++ ": " ++ message) channelLower }
        let st := if strLower nick ≠ strLower st.currentNick then
            { st with lastChatTimes := upd1 st.lastChatTimes channelLower (some now) }
          else st
        let slp := isSleeping st.sleepUntil channel now
        let st := { st with sleepUntil := slp.2 }
        if slp.1 then ([], st)
        else
          let messageLower := strLower message
          let isDirect := pyStarts messageLower (strLower st.currentNick ++ ":")
          if !isDirect && wasLastSpeaker st.currentNick (st.chatHistory channelLower) then
            ([], st)
          else
            if isDirect then
              let st := updateTriggerTime cfg st channelLower now
              let response := aiResponse message
              if response ≠ "" then ([Action.reply channel response], st) else ([], st)
            else
              if pyTruthy (getChannelConfig cfg channel "ai_mention" (Val.vbool false)) then
                if isDirect then ([], st)
                else if pyContains (strLower st.currentNick) messageLower then
                  let st := updateTriggerTime cfg st channelLower now
                  let response := aiResponse message
                  if response ≠ "" then ([Action.reply channel response], st) else ([], st)
                else ([], st)
              else ([], st)

/-- `IRCBot.handle_private_message` (`irc.py` lines 1074–1087): private-flood
accounting, then an unconditional `return` ("Tempoary disable private
messages"); the reply-and-record code below that return is unreachable. -/
def handlePrivateMessage (cfg : Cfg) (st : BotSt) (now : ℚ)
    (nick userhost _message : String) : List Action × BotSt :=
  let fl := checkPrivmsgFlood cfg st.flood nick userhost now false
  let st := { st with flood := fl.2 }
  if !fl.1 then ([], st)
  else ([], st)

/-- Concrete scenario: a channel with a one-line flood limit whose offender
is listed in `admins` (and holds op on the network, which the router never
consults). -/
def cfg1 : Cfg :=
  [("admins", Val.vlist [Val.vstr "x"]),
   ("channels", Val.vlist [Val.vdict
     [("name", Val.vstr "#r"),
      ("floodpro", Val.vdict
        [("lines", Val.vnum 1), ("seconds", Val.vnum 10), ("ban_time", Val.vnum 1)])]])]

/-- A fresh router state with current nick `quip`. -/
def st0 : BotSt :=
  ⟨FloodState.empty, fun _ => [], fun _ => none, fun _ => 0, fun _ => none,
    fun _ => none, "quip"⟩

/-- Concrete scenario: `#r` with `floodpro = {lines: 2, seconds: 10, ban_time: 1}`. -/
def cfg2 : Cfg :=
  [("channels", Val.vlist [Val.vdict
     [("name", Val.vstr "#r"),
      ("floodpro", Val.vdict
        [("lines", Val.vnum 2), ("seconds", Val.vnum 10), ("ban_time", Val.vnum 1)])]])]

/-- First message from `x!u@h` at t = 0. -/
def c2step1 : Bool × FloodState :=
  checkChannelFlood cfg2 FloodState.empty "#r" "x" "u@h" 0 false false

/-- Second message from `x!u@h` at t = 1: trips the two-line limit. -/
def c2step2 : Bool × FloodState :=
  checkChannelFlood cfg2 c2step1.2 "#r" "x" "u@h" 1 false false

/-- Message from `x2!u@h` (same host, renamed) at t = 2, inside the ban. -/
def c2step3 : Bool × FloodState :=
  checkChannelFlood cfg2 c2step2.2 "#r" "x2" "u@h" 2 false false

/-- Concrete scenario: global `kick` block `{enabled: true, requires: op}`,
room `#r` block `{enabled: false}`. -/
def cfg3 : Cfg :=
  [("commands", Val.vdict [("kick", Val.vdict
      [("enabled", Val.vbool true), ("requires", Val.vstr "op")])]),
   ("channels", Val.vlist [Val.vdict
     [("name", Val.vstr "#r"),
      ("commands", Val.vdict [("kick", Val.vdict [("enabled", Val.vbool false)])])]])]

/-- Concrete scenario: the global tree defines `a.b = 1`; `#r` has no override. -/
def cfg4 : Cfg :=
  [("a", Val.vdict [("b", Val.vnum 1)]),
   ("channels", Val.vlist [Val.vdict [("name", Val.vstr "#r")]])]

/-- Concrete scenario: mentions enabled for `#r`, no flood / ignore config. -/
def cfg5 : Cfg :=
  [("ai_mention", Val.vbool true),
   ("channels", Val.vlist [Val.vdict [("name", Val.vstr "#r")]])]

/-- Router state whose last `#r` chat-log entry is the bot's. -/
def st5 : BotSt :=
  ⟨FloodState.empty, fun ch => if ch = "#r" then ["quip: hi"] else [],
    fun _ => none, fun _ => 0, fun _ => none, fun _ => none, "quip"⟩

/-- Same configuration as `cfg5`, kept separate for the mention analysis. -/
def cfg6 : Cfg :=
  [("ai_mention", Val.vbool true),
   ("channels", Val.vlist [Val.vdict [("name", Val.vstr "#r")]])]

/-- A fresh router state with current nick `quip` and empty history. -/
def st6 : BotSt :=
  ⟨FloodState.empty, fun _ => [], fun _ => none, fun _ => 0, fun _ => none,
    fun _ => none, "quip"⟩

/-- A 600-character single-word payload. -/
def msg600 : String := String.mk (List.replicate 600 'a')

/-- C1 (counterexample): at the router's actual channel call site no op/admin
flags are passed, so a sender who is listed in `admins` (and op on the
network) is flood-scored like anyone else: with a one-line limit their very
first message is suppressed, a ban entry is created against them, and the
ban+kick pair goes out — contradicting "permits the message, records no
timestamp, creates no ban". -/
theorem C1_counterexample :
    valItems (pyGetD cfg1 "admins" Val.vnull) = [Val.vstr "x"] ∧
    (handleChannelMessage cfg1 (fun _ _ => false) (fun _ => "ok") st0 0
        "x" "u@h" "#r" "hello").1 =
      [Action.sendRaw "MODE #r +b *!*@h",
       Action.sendRaw "KICK #r x :Flood protection - banned for 1 minutes"] ∧
    (handleChannelMessage cfg1 (fun _ _ => false) (fun _ => "ok") st0 0
        "x" "u@h" "#r" "hello").2.flood.bannedUsers "#r" "x" = some 60 := by
  refine ⟨rfl, ?_, ?_⟩ <;> with_unfolding_all rfl

/-- C1 (amended): the detector functions themselves do bypass — with
`is_op` or `is_admin` true, `check_channel_flood` permits the message and
leaves the state untouched, and likewise `check_privmsg_flood` with
`is_admin` true — but the router's call sites pass no flags, so the bypass
never applies there. -/
theorem C1_theorem (cfg : Cfg) (st : FloodState) (channel nick userhost : String)
    (now : ℚ) (isAdmin : Bool) :
    checkChannelFlood cfg st channel nick userhost now true isAdmin = (true, st) ∧
    checkChannelFlood cfg st channel nick userhost now isAdmin true = (true, st) ∧
    checkPrivmsgFlood cfg st nick userhost now true = (true, st) := by
  refine ⟨?_, ?_, ?_⟩
  · simp [checkChannelFlood]
  · simp [checkChannelFlood]
  · simp [checkPrivmsgFlood]

/-- C2 (counterexample): the internal ban table is keyed by nick, not by the
emitted `*!*@<host>` mask.  After `x!u@h` trips the two-line limit and is
banned (entry under the nick `x`), a message from `x2!u@h` — same host, so
it matches the banned mask — is still processed; a rename evades the bot's
suppression. -/
theorem C2_counterexample :
    c2step2.1 = false ∧
    c2step2.2.bannedUsers "#r" "x" = some 61 ∧
    getBanCommand cfg2 "#r" "x" "u@h" =
      ["MODE #r +b *!*@h",
       "KICK #r x :Flood protection - banned for 1 minutes"] ∧
    c2step3.1 = true ∧
    c2step3.2.bannedUsers "#r" "x2" = none := by
  refine ⟨?_, ?_, ?_, ?_, ?_⟩ <;> with_unfolding_all rfl

/-- C5 (code bug): the router appends the incoming line to the chat log
*before* the was-self-last gate, so the gate inspects the just-appended
entry and can never fire for another sender.  Concretely: the last `#r`
entry is the bot's (`quip: hi`), the incoming message `quip is great` from
`alice` is not a direct address, and the router still replies. -/
theorem C5_theorem :
    st5.chatHistory "#r" = ["quip: hi"] ∧
    wasLastSpeaker st5.currentNick (st5.chatHistory "#r") = true ∧
    pyStarts (strLower "quip is great") (strLower st5.currentNick ++ ":") = false ∧
    (handleChannelMessage cfg5 (fun _ _ => false) (fun _ => "ok") st5 100
        "alice" "a@h" "#r" "quip is great").1 = [Action.reply "#r" "ok"] := by
  refine ⟨rfl, ?_, ?_, ?_⟩ <;> with_unfolding_all rfl

/-- C7: pre-registration, a 433 on the primary nick substitutes `altnick`
and re-sends `NICK`; each further pre-registration 433 substitutes
`altnick` plus an incrementing counter; post-registration a 433 changes
nothing.  With `nick = Q`, `altnick = Q_`, two successive 433s send
`NICK Q_` then `NICK Q_1`. -/
theorem C7_theorem (s : NickSt) :
    (s.registrationComplete = false → s.currentNick = s.nick →
      handle433 s = ({ s with currentNick := s.altnick }, ["NICK " ++ s.altnick])) ∧
    (s.registrationComplete = false → s.currentNick ≠ s.nick →
      handle433 s =
        ({ s with
            nickAttempt := s.nickAttempt + 1
            currentNick := s.altnick ++ toString (s.nickAttempt + 1) },
          ["NICK " ++ (s.altnick ++ toString (s.nickAttempt + 1))])) ∧
    (s.registrationComplete = true → handle433 s = (s, [])) ∧
    (handle433 ⟨false, "Q", "Q_", "Q", 0⟩).2 = ["NICK Q_"] ∧
    (handle433 (handle433 ⟨false, "Q", "Q_", "Q", 0⟩).1).2 = ["NICK Q_1"] := by
  refine ⟨?_, ?_, ?_, rfl, rfl⟩
  · intro h1 h2
    simp [handle433, h1, h2]
  · intro h1 h2
    simp [handle433, h1, h2]
  · intro h1
    simp [handle433, h1]

/-- C7 witness: the first collision of the literal scenario, through the
general theorem. -/
theorem C7_witness :
    handle433 ⟨false, "Q", "Q_", "Q", 0⟩ = (⟨false, "Q", "Q_", "Q_", 0⟩, ["NICK Q_"]) := by
  have h := (C7_theorem ⟨false, "Q", "Q_", "Q", 0⟩).1 rfl rfl
  simpa using h

/-- C9: on every blocking acquire, tokens first accrue lazily as
`min(capacity, tokens + (now − last) × rate)` with `last := now`; then a
full token yields wait zero and a decrement, else the wait is
`(1 − tokens)/rate` with the token count left unchanged. -/
theorem C9_theorem (b : TokenBucket) (now : ℚ) :
    (addTokens b now).tokens = min b.capacity (b.tokens + (now - b.lastUpdate) * b.fillRate) ∧
    (addTokens b now).lastUpdate = now ∧
    ((addTokens b now).tokens ≥ 1 →
      getToken b now true =
        (0, { addTokens b now with tokens := (addTokens b now).tokens - 1 })) ∧
    (¬ (addTokens b now).tokens ≥ 1 →
      getToken b now true = ((1 - (addTokens b now).tokens) / b.fillRate, addTokens b now)) := by
  refine ⟨rfl, rfl, ?_, ?_⟩
  · intro h
    simp only [getToken]
    rw [if_pos h]
  · intro h
    simp only [getToken]
    rw [if_neg h]
    simp [addTokens]

/-- C9 witness: capacity 4, rate 1, half a token at t = 0, acquire at
t = 1/5: accrual reaches 7/10 and the wait is 3/10. -/
theorem C9_witness :
    getToken ⟨4, 1, (1 : ℚ)/2, 0⟩ (1/5) true = ((3 : ℚ)/10, ⟨4, 1, (7 : ℚ)/10, 1/5⟩) := by
  have h := (C9_theorem ⟨4, 1, (1 : ℚ)/2, 0⟩ (1/5)).2.2.2 (by norm_num [addTokens])
  rw [h]
  norm_num [addTokens]

/-- C10: an inbound private (non-CTCP) message only runs the private-flood
accounting and returns: no action is ever emitted, the chat history and all
other router state are untouched, and the flood table is exactly what
`check_privmsg_flood` (called with no admin flag) leaves. -/
theorem C10_theorem (cfg : Cfg) (st : BotSt) (now : ℚ) (nick userhost message : String) :
    (handlePrivateMessage cfg st now nick userhost message).1 = [] ∧
    (handlePrivateMessage cfg st now nick userhost message).2.chatHistory = st.chatHistory ∧
    (handlePrivateMessage cfg st now nick userhost message).2 =
      { st with flood := (checkPrivmsgFlood cfg st.flood nick userhost now false).2 } := by
  simp only [handlePrivateMessage]
  refine ⟨?_, ?_, ?_⟩ <;> split <;> rfl

/-- C3 (counterexample): `PermissionManager._get_command_config` merges the
global command block under the room block — for `kick` in `#r` it returns a
dict that still carries the global `requires: op`, which the room block does
not define — contradicting "the room block is returned entirely, with no
merging of any keys from the global block". -/
theorem C3_counterexample :
    pyGetV? (permGetCommandConfig cfg3 "kick" (some "#r")) "requires" =
      some (Val.vstr "op") ∧
    pyGetV? (getChannelCommandConfig cfg3 "#r" "kick") "requires" = none ∧
    getChannelCommandConfig cfg3 "#r" "kick" =
      Val.vdict [("enabled", Val.vbool false)] := by
  exact ⟨rfl, rfl, rfl⟩

/-- C4 (counterexample): for the dotted key `a.b` with no room override, the
code returns the caller's default even though the global tree defines
`a.b = 1` — the global fallback looks up the literal string `"a.b"` instead
of traversing the global tree. -/
theorem C4_counterexample :
    getChannelConfig cfg4 "#r" "a.b" (Val.vstr "dflt") = Val.vstr "dflt" ∧
    specConfigGet cfg4 "#r" "a.b" (Val.vstr "dflt") = Val.vnum 1 ∧
    pyGet? cfg4 "a" = some (Val.vdict [("b", Val.vnum 1)]) := by
  refine ⟨?_, ?_, rfl⟩ <;> with_unfolding_all rfl

/-- C3 (amended/confirmed for the dispatcher path): the resolver used by the
dispatcher, `get_channel_command_config`, agrees with the spec's
`GetCommand` on every room and command — the room block wins entirely when
explicitly defined, else the global block is returned as-is. -/
theorem C3_theorem (cfg : Cfg) (channel command : String) :
    getChannelCommandConfig cfg channel command = specGetCommand cfg channel command := by
  unfold getChannelCommandConfig specGetCommand
  cases h : (cfgChannels cfg).find?
      (fun c => strLower (valAsStr (pyGetD c "name" Val.vnull)) = strLower channel) with
  | none => simp [h]
  | some cc =>
    simp only [h]
    cases hcc : cc with
    | nil => simp [pyGetD, pyGet?, pyGetV?, List.find?]
    | cons kv rest =>
      simp only [List.isEmpty_cons, if_neg]
      cases h2 : pyGet? (kv :: rest) "commands" with
      | none => simp [pyGetD, h2, pyGetV?]
      | some v =>
        cases v with
        | vdict d =>
          simp only [pyGetD, h2, Option.getD, pyGetV?]
          cases h3 : pyGet? d command with
          | none => simp [h3]
          | some b => simp [h3]
        | vnull => simp [pyGetD, h2, pyGetV?]
        | vbool b => simp [pyGetD, h2, pyGetV?]
        | vnum q => simp [pyGetD, h2, pyGetV?]
        | vstr s => simp [pyGetD, h2, pyGetV?]
        | vlist xs => simp [pyGetD, h2, pyGetV?]



/-- C4 (amended): for plain keys the config view agrees with the spec's
`Get` (room override, then global, then default); for dotted keys the room
tree is traversed (a null result falling through) but the global fallback
checks only the literal dotted string as a top-level global key. -/
theorem C4_theorem (cfg : Cfg) (channel key : String) (dflt : Val) :
    (pyContains "." key = false →
      getChannelConfig cfg channel key dflt = specConfigGet cfg channel key dflt) ∧
    (pyContains "." key = true →
      getChannelConfig cfg channel key dflt =
        match ((cfgChannels cfg).find?
            (fun c => strLower (valAsStr (pyGetD c "name" Val.vnull)) = strLower channel)).bind
            (fun cc => match pyTraverse (Val.vdict cc) (key.splitOn ".") with
              | Val.vnull => none
              | v => some v) with
        | some v => v
        | none => match pyGet? cfg key with | some v => v | none => dflt) := by
  constructor
  · intro h
    unfold getChannelConfig specConfigGet
    cases hf : (cfgChannels cfg).find?
        (fun c => strLower (valAsStr (pyGetD c "name" Val.vnull)) = strLower channel) with
    | none => simp [hf, h, pyGetV?]
    | some cc => simp [hf, h, pyGetV?]
  · intro h
    unfold getChannelConfig
    cases hf : (cfgChannels cfg).find?
        (fun c => strLower (valAsStr (pyGetD c "name" Val.vnull)) = strLower channel) with
    | none => simp [hf, h]
    | some cc =>
      simp only [hf, h, Option.bind_some, if_true]
      cases ht : pyTraverse (Val.vdict cc) (key.splitOn ".") <;> simp [ht]



/-- C4 witness: a plain key resolved through the equivalence theorem. -/
theorem C4_witness :
    getChannelConfig cfg4 "#r" "a" (Val.vstr "d") = specConfigGet cfg4 "#r" "a" (Val.vstr "d") :=
  (C4_theorem cfg4 "#r" "a" (Val.vstr "d")).1 rfl

/-- C2 (amended): for a non-exempt sender in a channel with flood config,
when the filtered window plus the new message reaches `lines`, the check
returns `False`, records a ban keyed by the NICK for `ban_time` minutes,
clears that nick's window, touches no other nick's ban entry, suppresses
that same nick until expiry, and `get_ban_command` is exactly the
`[MODE +b *!*@<host>, KICK]` pair in that order. -/
theorem C2_theorem (cfg : Cfg) (st : FloodState) (channel nick userhost hostPart : String)
    (now : ℚ) (cc : PyDict) (fc : PyDict)
    (hfind : (cfgChannels cfg).find?
      (fun c => valAsStr (pyGetD c "name" Val.vnull) = channel) = some cc)
    (hfp : pyGet? cc "floodpro" = some (Val.vdict fc))
    (hban : st.bannedUsers channel nick = none)
    (hsplit : (userhost.splitOn "@").getD 1 "" = hostPart)
    (hcount : (((st.channelHistory channel nick).filter
        (fun t => now - t ≤ valAsQ (pyGetD fc "seconds" Val.vnull))).length + 1 : ℚ)
        ≥ valAsQ (pyGetD fc "lines" Val.vnull)) :
    (checkChannelFlood cfg st channel nick userhost now false false).1 = false ∧
    (checkChannelFlood cfg st channel nick userhost now false false).2.bannedUsers channel nick
      = some (now + valAsQ (pyGetD fc "ban_time" Val.vnull) * 60) ∧
    (checkChannelFlood cfg st channel nick userhost now false false).2.channelHistory channel nick
      = [] ∧
    (∀ n', n' ≠ nick →
      (checkChannelFlood cfg st channel nick userhost now false false).2.bannedUsers channel n'
        = st.bannedUsers channel n') ∧
    (∀ now', now' < now + valAsQ (pyGetD fc "ban_time" Val.vnull) * 60 →
      (checkChannelFlood cfg
        (checkChannelFlood cfg st channel nick userhost now false false).2
        channel nick userhost now' false false).1 = false) ∧
    getBanCommand cfg channel nick userhost =
      ["MODE " ++ channel ++ " +b " ++ ("*!*@" ++ hostPart),
       "KICK " ++ channel ++ " " ++ nick ++ " :Flood protection - banned for "
         ++ pyNumStr (valAsQ (pyGetD fc "ban_time" Val.vnull)) ++ " minutes"] := by
  have hcond : ∀ (s : FloodState), s.channelHistory channel nick = st.channelHistory channel nick →
      ((((s.channelHistory channel nick).filter
        (fun t => now - t ≤ valAsQ (pyGetVD (pyGetD cc "floodpro" Val.vnull) "seconds" Val.vnull))
        ++ [now]).length : ℚ)
        ≥ valAsQ (pyGetVD (pyGetD cc "floodpro" Val.vnull) "lines" Val.vnull)) := by
    intro s hs
    rw [hs, List.length_append]
    have : pyGetD cc "floodpro" Val.vnull = Val.vdict fc := by
      simp [pyGetD, hfp]
    rw [this]
    simp only [pyGetVD]
    push_cast
    simpa using hcount
  have hmain : checkChannelFlood cfg st channel nick userhost now false false
      = (false, { st with
          bannedUsers := upd2 st.bannedUsers channel nick
            (some (now + valAsQ (pyGetD fc "ban_time" Val.vnull) * 60))
          channelHistory := upd2 st.channelHistory channel nick [] }) := by
    unfold checkChannelFlood
    rw [hfind]
    simp only [Bool.or_self, if_neg, Bool.false_eq_true, not_false_eq_true, pyHas, hfp,
      Option.isSome_some, Bool.not_true, hban]
    unfold channelFloodCore
    rw [if_pos (hcond st rfl)]
    have : pyGetD cc "floodpro" Val.vnull = Val.vdict fc := by
      simp [pyGetD, hfp]
    simp [this, pyGetVD]
  refine ⟨?_, ?_, ?_, ?_, ?_, ?_⟩
  · rw [hmain]
  · rw [hmain]; simp [upd2]
  · rw [hmain]; simp [upd2]
  · intro n' hn
    rw [hmain]; simp [upd2, hn]
  · intro now' h'
    rw [hmain]
    unfold checkChannelFlood
    rw [hfind]
    simp only [Bool.or_self, if_neg, Bool.false_eq_true, not_false_eq_true, pyHas, hfp,
      Option.isSome_some, Bool.not_true]
    simp only [upd2, and_self, if_true, if_pos h']
  · unfold getBanCommand
    rw [hfind]
    have hfc : pyGetD cc "floodpro" Val.vnull = Val.vdict fc := by
      simp [pyGetD, hfp]
    simp only [Option.getD_some, hsplit, hfc, pyGetVD]



/-- C2 witness: the one-line-limit scenario, through the general theorem. -/
theorem C2_witness :
    (checkChannelFlood cfg1 FloodState.empty "#r" "x" "u@h" 0 false false).1 = false ∧
    (checkChannelFlood cfg1 FloodState.empty "#r" "x" "u@h" 0 false false).2.bannedUsers "#r" "x"
      = some 60 ∧
    getBanCommand cfg1 "#r" "x" "u@h" =
      ["MODE #r +b *!*@h", "KICK #r x :Flood protection - banned for 1 minutes"] := by
  have h := C2_theorem cfg1 FloodState.empty "#r" "x" "u@h" "h" 0
    [("name", Val.vstr "#r"), ("floodpro", Val.vdict
      [("lines", Val.vnum 1), ("seconds", Val.vnum 10), ("ban_time", Val.vnum 1)])]
    [("lines", Val.vnum 1), ("seconds", Val.vnum 10), ("ban_time", Val.vnum 1)]
    (by with_unfolding_all rfl) (by with_unfolding_all rfl) rfl
    (by with_unfolding_all rfl)
    (by
      have h1 : valAsQ (pyGetD
          [("lines", Val.vnum 1), ("seconds", Val.vnum 10), ("ban_time", Val.vnum 1)]
          "lines" Val.vnull) = 1 := by with_unfolding_all rfl
      have h2 : FloodState.empty.channelHistory "#r" "x" = [] := rfl
      rw [h1, h2]
      norm_num)
  refine ⟨h.1, ?_, ?_⟩
  · rw [h.2.1]
    have h3 : valAsQ (pyGetD
        [("lines", Val.vnum 1), ("seconds", Val.vnum 10), ("ban_time", Val.vnum 1)]
        "ban_time" Val.vnull) = 1 := by with_unfolding_all rfl
    rw [h3]
    norm_num
  · rw [h.2.2.2.2.2]
    with_unfolding_all rfl

theorem memOfGetLast {α : Type} {l : List α} {a : α} (h : l.getLast? = some a) : a ∈ l := by
  obtain ⟨hne, rfl⟩ := List.mem_getLast?_eq_getLast h
  exact List.getLast_mem hne

theorem dropWhileLen (p : Char → Bool) (l : List Char) :
    (l.dropWhile p).length ≤ l.length := by
  induction l with
  | nil => simp [List.dropWhile]
  | cons c rest ih =>
    simp only [List.dropWhile]
    split
    · simp only [List.length_cons]
      omega
    · simp

theorem rstripLen (s : List Char) : (rstripL s).length ≤ s.length := by
  unfold rstripL
  calc ((s.reverse.dropWhile isPyWs).reverse).length
      = (s.reverse.dropWhile isPyWs).length := List.length_reverse _
    _ ≤ s.reverse.length := dropWhileLen _ _
    _ = s.length := List.length_reverse _

theorem pyRFindI_cases (sub s : List Char) (e : Nat) :
    pyRFindI sub s e = -1 ∨
      ∃ i : ℕ, pyRFindI sub s e = (i : Int) ∧ i + sub.length ≤ e := by
  unfold pyRFindI
  cases hl : ((List.range (e + 1)).filter
      (fun i => decide (i + sub.length ≤ e) && isPreL sub (s.drop i))).getLast? with
  | none => left; rfl
  | some j =>
    right
    refine ⟨j, rfl, ?_⟩
    have hmem := memOfGetLast hl
    have := (List.mem_filter.mp hmem).2
    simp only [Bool.and_eq_true, decide_eq_true_eq] at this
    exact this.1

theorem stepInv (s : List Char) (maxLen : Nat) (sp : Int) (punct : List Char)
    (hp : punct.length = 2)
    (hsp : sp = -1 ∨ (0 ≤ sp ∧ sp ≤ (maxLen : Int) - 1)) :
    puncStep s maxLen sp punct = -1 ∨
      (0 ≤ puncStep s maxLen sp punct ∧ puncStep s maxLen sp punct ≤ (maxLen : Int) - 1) := by
  unfold puncStep
  rcases pyRFindI_cases punct s (maxLen - 1) with hc | ⟨i, hc, hb⟩
  · rw [hc]
    have hng : ¬ ((-1 : Int) > sp) := by
      rcases hsp with h | ⟨h1, _⟩ <;> omega
    rw [if_neg hng]
    exact hsp
  · rw [hc]
    by_cases hgt : (i : Int) > sp
    · rw [if_pos hgt]
      right
      constructor
      · omega
      · rw [hp] at hb
        omega
    · rw [if_neg hgt]
      exact hsp

theorem chunkSplitPoint_bound (maxLen : Nat) (s : List Char) :
    0 ≤ chunkSplitPoint maxLen s ∧ chunkSplitPoint maxLen s ≤ (maxLen : Int) := by
  have h0 : (-1 : Int) = -1 ∨ (0 ≤ (-1 : Int) ∧ (-1 : Int) ≤ (maxLen : Int) - 1) := Or.inl rfl
  have h1 := stepInv s maxLen (-1) ". ".data rfl h0
  have h2 := stepInv s maxLen (puncStep s maxLen (-1) ". ".data) "! ".data rfl h1
  have h3 := stepInv s maxLen
    (puncStep s maxLen (puncStep s maxLen (-1) ". ".data) "! ".data) "? ".data rfl h2
  unfold chunkSplitPoint
  simp only [List.foldl]
  set sp3 := puncStep s maxLen
    (puncStep s maxLen (puncStep s maxLen (-1) ". ".data) "! ".data) "? ".data with hsp3
  by_cases hz : sp3 = -1
  · rw [if_pos hz]
    rcases pyRFindI_cases " ".data s maxLen with hc | ⟨i, hc, hb⟩
    · rw [hc]
      norm_num
    · rw [hc]
      have : (i : Int) ≠ -1 := by omega
      rw [if_neg this]
      constructor
      · omega
      · simp only [List.length_cons, List.length_nil] at hb
        omega
  · rw [if_neg hz]
    rcases h3 with hc | ⟨hge, hle⟩
    · exact absurd hc hz
    · rw [if_neg hz]
      constructor
      · exact hge
      · omega


theorem chunksAux_le (maxLen : Nat) :
    ∀ (fuel : Nat) (s : List Char), ∀ c ∈ chunksAux maxLen fuel s, c.length ≤ maxLen := by
  intro fuel
  induction fuel with
  | zero =>
    intro s c hc
    simp [chunksAux] at hc
  | succ n ih =>
    intro s c hc
    cases s with
    | nil => simp [chunksAux] at hc
    | cons ch rest =>
      rw [chunksAux] at hc
      split at hc
      · rcases List.mem_cons.mp hc with rfl | hmem
        · have hb := (chunkSplitPoint_bound maxLen (ch :: rest)).2
          have hs : (chunkSplitPoint maxLen (ch :: rest)).toNat ≤ maxLen := by omega
          calc (rstripL ((ch :: rest).take (chunkSplitPoint maxLen (ch :: rest)).toNat)).length
              ≤ ((ch :: rest).take (chunkSplitPoint maxLen (ch :: rest)).toNat).length :=
                rstripLen _
            _ ≤ (chunkSplitPoint maxLen (ch :: rest)).toNat := List.length_take_le _ _
            _ ≤ maxLen := hs
        · exact ih _ c hmem
      · rcases List.mem_singleton.mp hc with rfl
        omega
      · simp

/-- C8 (amended): every protocol line emitted by `send_channel_message`
(split at sentence boundary nearest the limit, else word boundary, else
hard cut) is at most 513 characters — not 512: the overhead deduction
`len("PRIVMSG") + len(channel) + 4` undercounts the real
`"PRIVMSG " … " :" … CRLF` framing by one. -/
theorem C8_theorem (channel message : String) (h : channel.length ≤ 500) :
    ∀ l ∈ sendChannelMessageLines channel message, l.length ≤ 513 := by
  intro l hl
  unfold sendChannelMessageLines at hl
  rcases List.mem_map.mp hl with ⟨c, hc, rfl⟩
  have hcl := chunksAux_le _ _ _ c hc
  have h7 : "PRIVMSG".length = 7 := rfl
  rw [h7] at hcl
  have hlen : ("PRIVMSG " ++ channel ++ " :" ++ String.mk c ++ "\r\n").length
      = 12 + channel.length + c.length := by
    simp only [String.length_append]
    have e1 : "PRIVMSG ".length = 8 := rfl
    have e2 : " :".length = 2 := rfl
    have e3 : ("\r\n" : String).length = 2 := rfl
    have e4 : (String.mk c).length = c.length := rfl
    rw [e1, e2, e3, e4]
    omega
  rw [hlen]
  omega


/-- C8 witness: a short message through the bound. -/
theorem C8_witness : ("PRIVMSG #r :hello\r\n" : String).length ≤ 513 :=
  C8_theorem "#r" "hello" (by decide) _ (by decide)

set_option maxRecDepth 100000 in
/-- C8 (counterexample): a 600-character single-word payload to `#r` is
hard-cut at `max_len = 499`, producing a first protocol line of 513 bytes —
over the claimed 512-byte limit. -/
theorem C8_counterexample :
    (sendChannelMessageLines "#r" msg600).map String.length = [513, 115] ∧ 513 > 512 := by
  constructor
  · with_unfolding_all rfl
  · norm_num

theorem c6wls (m : String) : wasLastSpeaker "quip" ["alice: " ++ m] = false := by
  obtain ⟨md⟩ := m
  have hd : ("alice: " ++ String.mk md) = String.mk ('a' :: 'l' :: 'i' :: 'c' :: 'e' :: ':' :: ' ' :: md) := by
    apply String.ext
    rw [String.data_append]
    rfl
  rw [hd]
  with_unfolding_all rfl

theorem c6add (e : String) :
    addToHistory cfg6 st6.chatHistory e "#r" = upd1 st6.chatHistory "#r" [e] := by
  unfold addToHistory
  have h20 : valAsQ (getChannelConfig cfg6 "#r" "chat_history" (Val.vnum 20)) = 20 := by
    with_unfolding_all rfl
  have hne : ¬ ("#r" : String) = "" := by decide
  have hh : st6.chatHistory "#r" = [] := rfl
  rw [if_neg hne, h20, hh]
  norm_num

theorem c6find :
    (cfgChannels cfg6).find?
      (fun c => strLower (valAsStr (pyGetD c "name" (Val.vstr ""))) = "#r")
      = some [("name", Val.vstr "#r")] := by
  with_unfolding_all rfl

theorem c6ign1 : valItems (getChannelConfig cfg6 "#r" "ignore_nicks" (Val.vlist [])) = [] := by
  with_unfolding_all rfl

theorem c6ign2 :
    valItems (pyGetD [("name", Val.vstr "#r")] "ignore_nicks" (Val.vlist [])) = [] := by
  with_unfolding_all rfl

theorem c6rgx : valItems (getChannelConfig cfg6 "#r" "ignore_regex" (Val.vlist [])) = [] := by
  with_unfolding_all rfl

theorem c6flood :
    checkChannelFlood cfg6 st6.flood "#r" "alice" "a@h" 100 false false = (true, st6.flood) := by
  with_unfolding_all rfl

theorem c6pre : valAsStr (getChannelConfig cfg6 "#r" "cmd_prefix" (Val.vstr "!")) = "!" := by
  with_unfolding_all rfl

theorem c6mention : pyTruthy (getChannelConfig cfg6 "#r" "ai_mention" (Val.vbool false)) = true := by
  with_unfolding_all rfl

theorem c6cont : pyTruthy (getChannelConfig cfg6 "#r" "ai_continue" (Val.vbool false)) = false := by
  with_unfolding_all rfl

theorem c6lowr : strLower "#r" = "#r" := rfl

theorem c6lowq : strLower "quip" ++ ":" = "quip:" := rfl

theorem c6lowq2 : strLower "quip" = "quip" := rfl

theorem c6lowa : strLower "alice" = "alice" := rfl

theorem c6curr : st6.currentNick = "quip" := rfl

theorem c6slp : st6.sleepUntil "#r" = none := rfl

theorem c6trg : st6.lastTriggerTimes "#r" = 0 := rfl

/-- C6 (amended): with mentions enabled in `#r` and the earlier gates
passed (non-command by `h1`, non-direct by `h2`), the router replies and
updates the trigger time exactly when the current nick appears as a
case-insensitive SUBSTRING of the message text. -/
theorem C6_theorem (message : String) (rs : String → String → Bool)
    (h1 : pyStarts message "!" = false)
    (h2 : pyStarts (strLower message) "quip:" = false) :
    (handleChannelMessage cfg6 rs (fun _ => "ok") st6 100 "alice" "a@h" "#r" message).1
      = (if pyContains "quip" (strLower message) then [Action.reply "#r" "ok"] else []) ∧
    (handleChannelMessage cfg6 rs (fun _ => "ok") st6 100 "alice" "a@h" "#r" message).2.lastTriggerTimes "#r"
      = (if pyContains "quip" (strLower message) then 100 else 0) := by
  cases hb : pyContains "quip" (strLower message) with
  | false =>
    refine ⟨?_, ?_⟩ <;>
      simp [handleChannelMessage, updateTriggerTime, shouldContinueConversation, isSleeping,
        upd1, c6wls, c6add, c6find, c6ign1, c6ign2, c6rgx, c6flood, c6pre, c6mention,
        c6cont, c6lowr, c6lowq, c6lowq2, c6lowa, c6curr, c6slp, c6trg, h1, h2, hb]
  | true =>
    refine ⟨?_, ?_⟩ <;>
      simp [handleChannelMessage, updateTriggerTime, shouldContinueConversation, isSleeping,
        upd1, c6wls, c6add, c6find, c6ign1, c6ign2, c6rgx, c6flood, c6pre, c6mention,
        c6cont, c6lowr, c6lowq, c6lowq2, c6lowa, c6curr, c6slp, c6trg, h1, h2, hb]


/-- C6 (counterexample): in `quipping is fun` the nick `quip` appears only
inside another word — not as a bare word — yet the router replies and
updates `lastTrigger`. -/
theorem C6_counterexample :
    pyContains "quip" (strLower "quipping is fun") = true ∧
    (pySplitWs (strLower "quipping is fun")).contains "quip" = false ∧
    (handleChannelMessage cfg6 (fun _ _ => false) (fun _ => "ok") st6 100
        "alice" "a@h" "#r" "quipping is fun").1 = [Action.reply "#r" "ok"] ∧
    (handleChannelMessage cfg6 (fun _ _ => false) (fun _ => "ok") st6 100
        "alice" "a@h" "#r" "quipping is fun").2.lastTriggerTimes "#r" = 100 := by
  refine ⟨rfl, rfl, ?_, ?_⟩ <;> with_unfolding_all rfl

/-- C6 witness: `i love quip` mentions the nick, so the reply fires,
through the amended theorem. -/
theorem C6_witness :
    (handleChannelMessage cfg6 (fun _ _ => false) (fun _ => "ok") st6 100
        "alice" "a@h" "#r" "i love quip").1 = [Action.reply "#r" "ok"] := by
  have h := ( C6_theorem "i love quip" (fun _ _ => false) rfl rfl).1
  rw [h]
  with_unfolding_all rfl

end Quipbot
